import Mathlib

/-!
Shallow embedding of the special-function evaluation core of GM2CalcDIY
(`src/gm2_ffunctions.cpp` and the legacy variant of the same file), together
with theorems settling the specification claims about it.

Doubles are modelled as real numbers; the exact decimal literals of the C++
source are kept as exact rationals.  Fallible functions (which report a
domain error through the `ERROR` side channel and return quiet NaN) are
modelled as `Except String ℝ`, the error message being the reported
diagnostic.  Branch-selection structure of the one-argument form factors is
additionally mirrored by executable `Region`-valued dispatch functions over
`ℚ`, following the source's ordered tolerance checks.
-/

namespace gm2calc

/-- Source: `eps = 10.0*std::numeric_limits<double>::epsilon()`;
`DBL_EPSILON` is `2⁻⁵²`, so `eps = 10·2⁻⁵²`. -/
noncomputable def eps : ℝ := 10 / 2 ^ 52

/-- Source: `qdrt_eps = std::pow(eps, 0.25)`, the fourth root of `eps`,
written as the iterated square root. -/
noncomputable def qdrt_eps : ℝ := Real.sqrt (Real.sqrt eps)

/-- Source: `sqr(x) = x*x`. -/
noncomputable def sqr (x : ℝ) : ℝ := x * x

/-- Source: `pow3(x) = x*x*x`. -/
noncomputable def pow3 (x : ℝ) : ℝ := x * x * x

/-- Source: `pow4(x) = sqr(sqr(x))`. -/
noncomputable def pow4 (x : ℝ) : ℝ := sqr (sqr x)

/-- Source: `is_zero(a, prec) = |a| < prec` (an absolute test). -/
noncomputable def is_zero (a prec : ℝ) : Prop := |a| < prec

noncomputable instance (a prec : ℝ) : Decidable (is_zero a prec) :=
  inferInstanceAs (Decidable (|a| < prec))

/-- Source: `is_equal(a, b, prec) = is_zero(a - b, prec*(1 + max(|a|,|b|)))`. -/
noncomputable def is_equal (a b prec : ℝ) : Prop := is_zero (a - b) (prec * (1 + max |a| |b|))

noncomputable instance (a b prec : ℝ) : Decidable (is_equal a b prec) :=
  inferInstanceAs (Decidable (is_zero _ _))

/-- Source: two-argument `sort(x, y)`: swap when `x > y`. -/
noncomputable def sort2 (x y : ℝ) : ℝ × ℝ := if x > y then (y, x) else (x, y)

/-- Source: three-argument `sort(x, y, z)`: the three-comparison sorting
network (swap `x,y`; swap `y,z`; swap `x,y`). -/
noncomputable def sort3 (x y z : ℝ) : ℝ × ℝ × ℝ :=
  ((sort2 (sort2 x y).1 (sort2 (sort2 x y).2 z).1).1,
   (sort2 (sort2 x y).1 (sort2 (sort2 x y).2 z).1).2,
   (sort2 (sort2 x y).2 z).2)

/-- Modelled from the spec: `dilog(z)` is the standard dilogarithm, an
external primitive (`gm2_dilog.hpp`) whose implementation is not part of the
given sources.  It is modelled by the defining power series
`Li₂(x) = Σ_{n≥1} xⁿ/n²`, which agrees with the standard dilogarithm on
`[-1, 1]`; every claim settled here evaluates `dilog` only inside that
interval. -/
noncomputable def dilog (x : ℝ) : ℝ := tsum (fun n : ℕ => x ^ (n + 1) / ((n : ℝ) + 1) ^ 2)

/-- Modelled from the spec: `clausen_2(θ)` is the Clausen function of order
2, an external primitive; modelled by its defining (absolutely convergent)
series `Cl₂(θ) = Σ_{n≥1} sin(nθ)/n²`. -/
noncomputable def clausen_2 (θ : ℝ) : ℝ :=
  tsum (fun n : ℕ => Real.sin (((n : ℝ) + 1) * θ) / ((n : ℝ) + 1) ^ 2)

/-- Modelled from the spec: `std::atan2(y, x)`, the two-argument
arctangent, i.e. the argument of the complex number `x + i·y`. -/
noncomputable def atan2 (y x : ℝ) : ℝ := Complex.arg ⟨x, y⟩

/-- Source: `lambda_2(u, v) = sqr(1 - u - v) - 4*u*v`. -/
noncomputable def lambda_2 (u v : ℝ) : ℝ := sqr (1 - u - v) - 4 * u * v

/-- Source: `l00`, expansion of `(1 - lambda + u - v)/2` for `u ~ v ~ 0`. -/
noncomputable def l00 (u v : ℝ) : ℝ :=
  v * (1 + u * (1 + u * (1 + u)) + v * (u * (1 + u * (3 + 6 * u)) + u * (1 + u * (6 + 20 * u)) * v))

/-- Source: `l0v`, expansion of `(1 - lambda + u - v)/2` for `u ~ 0`, `v < 1`. -/
noncomputable def l0v (u v : ℝ) : ℝ :=
  u * (0.5 * (1 + (1 + v) / (1 - v)) +
    u * (v + u * v * (1 + v) / ((1 - v) * (1 - v))) / ((1 - v) * (1 - v) * ((1 - v) * (1 - v)) * (1 - v)))

/-- Source: `lv0`, expansion of `(1 - lambda - u + v)/2` for `u ~ 0`, `v < 1`. -/
noncomputable def lv0 (u v : ℝ) : ℝ :=
  v + u * (0.5 * (-1 + (1 + v) / (1 - v)) +
    u * (v + u * v * (1 + v) / ((1 - v) * (1 - v))) / ((1 - v) * (1 - v) * ((1 - v) * (1 - v)) * (1 - v)))

/-- Source: `luv(lambda, u, v)`, the pair
`(0.5*(1 - lambda + u - v), 0.5*(1 - lambda - u + v))` with series fallbacks
for small `u` or `v`. -/
noncomputable def luv (lambda u v : ℝ) : ℝ × ℝ :=
  if v < qdrt_eps then (l00 u v, l00 v u)
  else if u < qdrt_eps then (l0v u v, lv0 u v)
  else (0.5 * (1 - lambda + u - v), 0.5 * (1 - lambda - u + v))

/-- Source: `phi_pos(u, v)`, the `λ² > 0`, `u ≤ 1`, `v ≤ 1` branch of the
normalized Phi function. -/
noncomputable def phi_pos (u v : ℝ) : ℝ :=
  if is_equal u 1 eps ∧ is_equal v 1 eps then 2.343907238689459
  else
    if is_equal u v eps then
      (- sqr (Real.log u)
        + 2 * sqr (Real.log (if u < qdrt_eps then u * (1 + u * (1 + u * (2 + 5 * u))) else 0.5 * (1 - Real.sqrt (lambda_2 u v))))
        - 4 * dilog (if u < qdrt_eps then u * (1 + u * (1 + u * (2 + 5 * u))) else 0.5 * (1 - Real.sqrt (lambda_2 u v)))
        + 3.2898681336964529) / Real.sqrt (lambda_2 u v)
    else
      (- Real.log u * Real.log v
        + 2 * Real.log (luv (Real.sqrt (lambda_2 u v)) u v).1 * Real.log (luv (Real.sqrt (lambda_2 u v)) u v).2
        - 2 * dilog (luv (Real.sqrt (lambda_2 u v)) u v).1
        - 2 * dilog (luv (Real.sqrt (lambda_2 u v)) u v).2
        + 3.2898681336964529) / Real.sqrt (lambda_2 u v)

/-- Source: `cl2acos(x) = clausen_2(2*acos(x))`. -/
noncomputable def cl2acos (x : ℝ) : ℝ := clausen_2 (2 * Real.arccos x)

/-- Source: `phi_neg_1v(v)`, the `λ² < 0`, `u = 1` helper. -/
noncomputable def phi_neg_1v (v : ℝ) : ℝ :=
  2 * (cl2acos (1 - 0.5 * v) + 2 * cl2acos (0.5 * Real.sqrt v))

/-- Source: `phi_neg(u, v)`, the `λ² < 0` ("broken triangle") branch. -/
noncomputable def phi_neg (u v : ℝ) : ℝ :=
  if is_equal u 1 eps ∧ is_equal v 1 eps then 2.343907238689459
  else
    if is_equal u v eps then
      4 * clausen_2 (2 * Real.arcsin (Real.sqrt (0.25 / u))) / Real.sqrt (-lambda_2 u v)
    else if is_equal u 1 eps then phi_neg_1v v / Real.sqrt (-lambda_2 u v)
    else if is_equal v 1 eps then phi_neg_1v u / Real.sqrt (-lambda_2 u v)
    else
      2 * (cl2acos (0.5 * (1 + u - v) / Real.sqrt u)
          + cl2acos (0.5 * (1 - u + v) / Real.sqrt v)
          + cl2acos (0.5 * (-1 + u + v) / (Real.sqrt u * Real.sqrt v))) / Real.sqrt (-lambda_2 u v)

/-- Source: `phi_uv(u, v)` with `u = x/z`, `v = y/z`: returns `0` when the
Källén discriminant is within `eps` of zero (absolute test), otherwise
dispatches on the sign of the discriminant, mapping back into the unit
square via the reciprocal identities when needed. -/
noncomputable def phi_uv (u v : ℝ) : ℝ :=
  if is_zero (lambda_2 u v) eps then 0
  else if lambda_2 u v > 0 then
    if u ≤ 1 ∧ v ≤ 1 then phi_pos u v
    else if u ≥ 1 ∧ v / u ≤ 1 then phi_pos (1 / u) (v / u) * (1 / u)
    else phi_pos (1 / v) (1 / (v / u)) * (1 / v)
  else phi_neg u v

/-- Source: `Phi(x, y, z)`: sort the squared-mass arguments ascending,
normalize by the largest, and return `phi_uv(u,v)*z*lambda_2(u,v)/2`. -/
noncomputable def Phi (x y z : ℝ) : ℝ :=
  phi_uv ((sort3 x y z).1 / (sort3 x y z).2.2) ((sort3 x y z).2.1 / (sort3 x y z).2.2)
    * (sort3 x y z).2.2
    * lambda_2 ((sort3 x y z).1 / (sort3 x y z).2.2) ((sort3 x y z).2.1 / (sort3 x y z).2.2) / 2

/-- Source: `F1C(x)`. -/
noncomputable def F1C (x : ℝ) : ℝ :=
  if is_zero x eps then 4.0
  else if is_equal x 1 0.03 then
    1.0 + (x - 1.0) * (-0.6 + (x - 1.0) * (0.4 + (x - 1.0) * (-2.0/7.0
      + (x - 1.0) * (3.0/14.0 + (x - 1.0) * (-1.0/6.0 + 2.0/15.0 * (x - 1.0))))))
  else 2.0 / pow4 (x - 1.0) * (2.0 + x * (3.0 + 6.0 * Real.log x + x * (-6.0 + x)))

/-- Source: `F2C(x)`. -/
noncomputable def F2C (x : ℝ) : ℝ :=
  if is_zero x eps then 0.0
  else if is_equal x 1 0.03 then
    1.0 + (x - 1.0) * (-0.75 + (x - 1.0) * (0.6 + (x - 1.0) * (-0.5 + (x - 1.0) * (3.0/7.0
      + (x - 1.0) * (-0.375 + 1.0/3.0 * (x - 1.0))))))
  else 3.0 / (2.0 * pow3 (1.0 - x)) * (-3.0 - 2.0 * Real.log x + x * (4.0 - x))

/-- Source: `F3C(x)`.  Note: no `is_zero` check. -/
noncomputable def F3C (x : ℝ) : ℝ :=
  if is_equal x 1 0.03 then
    1.0 + (x - 1.0) * (1059.0/1175.0
      + (x - 1.0) * (-4313.0/3525.0
      + (x - 1.0) * (70701.0/57575.0
      + (x - 1.0) * (-265541.0/230300.0
      + (x - 1.0) * (48919.0/46060.0 - 80755.0/82908.0 * (x - 1.0))))))
  else 4.0 / (141.0 * pow4 (x - 1.0)) * (
      (1.0 - x) * (151.0 * sqr x - 335.0 * x + 592.0)
      + 6.0 * (21.0 * pow3 x - 108.0 * sqr x - 93.0 * x + 50.0) * Real.log x
      - 54.0 * x * (sqr x - 2.0 * x - 2.0) * sqr (Real.log x)
      - 108.0 * x * (sqr x - 2.0 * x + 12.0) * dilog (1.0 - x))

/-- Source: `F4C(x)`. -/
noncomputable def F4C (x : ℝ) : ℝ :=
  if is_zero x eps then 0.0
  else if is_equal x 1 0.03 then
    1.0 + (x - 1.0) * (-45.0/122.0
      + (x - 1.0) * (941.0/6100.0
      + (x - 1.0) * (-17.0/305.0
      + (x - 1.0) * (282.0/74725.0
      + (x - 1.0) * (177.0/6832.0 - 47021.0/1076040.0 * (x - 1.0))))))
  else -9.0 / (122.0 * pow3 (1.0 - x)) * (
      8.0 * (sqr x - 3.0 * x + 2.0)
      + (11.0 * sqr x - 40.0 * x + 5.0) * Real.log x
      - 2.0 * (sqr x - 2.0 * x - 2.0) * sqr (Real.log x)
      - 4.0 * (sqr x - 2.0 * x + 9.0) * dilog (1.0 - x))

/-- Source: `F1N(x)`. -/
noncomputable def F1N (x : ℝ) : ℝ :=
  if is_zero x eps then 2.0
  else if is_equal x 1 0.03 then
    1.0 + (x - 1.0) * (-0.4 + (x - 1.0) * (0.2 + (x - 1.0) * (-4.0/35.0
      + (x - 1.0) * (1.0/14.0 + (x - 1.0) * (-1.0/21.0 + 1.0/30.0 * (x - 1.0))))))
  else 2.0 / pow4 (x - 1.0) * (1.0 + x * (-6.0 + x * (3.0 - 6.0 * Real.log x + 2.0 * x)))

/-- Source: `F2N(x)` (near-1 radius `0.04`, unlike the other one-argument
form factors). -/
noncomputable def F2N (x : ℝ) : ℝ :=
  if is_zero x eps then 3.0
  else if is_equal x 1 0.04 then
    1.0 + (x - 1.0) * (-0.5 + (x - 1.0) * (0.3 + (x - 1.0) * (-0.2
      + (x - 1.0) * (1.0/7.0 + (x - 1.0) * (-3.0/28.0 + 1.0/12.0 * (x - 1.0))))))
  else 3.0 / pow3 (1.0 - x) * (1.0 + x * (2.0 * Real.log x - x))

/-- Source: `F3N(x)`. -/
noncomputable def F3N (x : ℝ) : ℝ :=
  if is_zero x eps then 8.0/105.0
  else if is_equal x 1 0.03 then
    1.0 + (x - 1.0) * (76/875.0 + (x - 1.0) * (-431/2625.0 + (x - 1.0) * (5858/42875.0
      + (x - 1.0) * (-3561/34300.0 + (x - 1.0) * (23/294.0 - 4381/73500.0 * (x - 1.0))))))
  else 4.0/105.0 / pow4 (x - 1.0) * (
      (1.0 - x) * (-97.0 * sqr x - 529.0 * x + 2.0)
      + 6.0 * sqr x * (13.0 * x + 81.0) * Real.log x
      + 108.0 * x * (7.0 * x + 4.0) * dilog (1.0 - x))

/-- Source: `F4N(x)`; `PI2 = 9.8696044010893586` is the source's literal. -/
noncomputable def F4N (x : ℝ) : ℝ :=
  if is_zero x eps then -3.0/4.0 * (-9.0 + 9.8696044010893586)
  else if is_equal x 1 0.03 then
    1.0 + sqr (x - 1.0) * (-111.0/800.0 + (x - 1.0) * (59.0/400.0 + (x - 1.0) * (-129.0/980.0
      + (x - 1.0) * (177.0/1568.0 - 775.0/8064.0 * (x - 1.0)))))
  else -2.25 / pow3 (1.0 - x) * (
      (x + 3.0) * (x * Real.log x + x - 1.0)
      + (6.0 * x + 2.0) * dilog (1.0 - x))

/-- Source: `G3(x)`.  Note: no `is_zero` check. -/
noncomputable def G3 (x : ℝ) : ℝ :=
  if is_equal x 1 0.01 then
    1.0/3.0 + (x - 1.0) * (-0.25 + (x - 1.0) * (0.2 + (-1.0/6.0 + (x - 1.0)/7.0) * (x - 1.0)))
  else 1.0 / (2.0 * pow3 (x - 1.0)) * ((x - 1.0) * (x - 3.0) + 2.0 * Real.log x)

/-- Source: `G4(x)`.  Note: no `is_zero` check. -/
noncomputable def G4 (x : ℝ) : ℝ :=
  if is_equal x 1 0.01 then
    1.0/6.0 + (x - 1.0) * (-1.0/12.0 + (x - 1.0) * (0.05 + (-1.0/30.0 + (x - 1.0)/42.0) * (x - 1.0)))
  else 1.0 / (2.0 * pow3 (x - 1.0)) * ((x - 1.0) * (x + 1.0) - 2.0 * x * Real.log x)

/-- Source: `Fb11(x, y)`, expansion of `Fb` around `(1,1)`. -/
noncomputable def Fb11 (x y : ℝ) : ℝ :=
  1.0/12.0 + (-0.05 + (y - 1.0)/30) * (y - 1.0)
    + (x - 1.0) * (-0.05 + (1.0/30.0 - (y - 1.0)/42.0) * (y - 1.0)
    + (x - 1.0) * (1.0/30.0 + (-1.0/42.0 + (y - 1.0)/56.0) * (y - 1.0)))

/-- Source: `Fb1(x, y)`, expansion of `Fb` for `y` near 1. -/
noncomputable def Fb1 (x y : ℝ) : ℝ :=
  (2.0 + x * (3.0 + 6.0 * Real.log x + x * (-6.0 + x))) / (6.0 * pow4 (x - 1.0))
    + (y - 1.0) * (3.0 + x * (10.0 + 12.0 * Real.log x + x * (-18.0 + x * (6.0 - x))))
        / (12.0 * (pow4 (x - 1.0) * (x - 1.0)))
    + sqr (y - 1.0) * (12.0 + x * (65.0 + 60.0 * Real.log x + x * (-120.0 + x * (60.0 + x * (-20.0 + 3.0 * x)))))
        / (60 * (pow4 (x - 1.0) * (x - 1.0) * (x - 1.0)))

/-- Source: `Fbx(x, y)`, expansion of `Fb` around `x = y`. -/
noncomputable def Fbx (x y : ℝ) : ℝ :=
  (-5.0 - 2.0 * Real.log x + x * (4.0 - 4.0 * Real.log x + x)) / (2.0 * pow4 (x - 1.0))
    - (y - x) * (-1.0 + x * (-9.0 - 6.0 * Real.log x + x * (9.0 - 6.0 * Real.log x + x)))
        / (2.0 * (pow4 (x - 1.0) * (x - 1.0)) * x)
    - sqr (y - x) * (-1.0 + x * (12.0 + x * (36.0 + 36.0 * Real.log x + x * (-44.0 + 24.0 * Real.log x - 3.0 * x))))
        / (6 * (pow4 (x - 1.0) * (x - 1.0) * (x - 1.0)) * sqr x)

/-- Diagnostic message of `Fb` for negative arguments. -/
def msgFb : String := "Fb: x and y must not be negative!"

/-- Source: `Fb(x, y)`: reject negative arguments with a diagnostic and a
quiet-NaN return (modelled as `Except.error`), sort the arguments, return 0
when the larger one is within `eps` of zero, dispatch to the expansions on
the `0.01`-tolerance bands around 1 and around `x = y`, and otherwise return
the finite-difference quotient of `G4`. -/
noncomputable def Fb (x y : ℝ) : Except String ℝ :=
  if x < 0 ∨ y < 0 then Except.error msgFb
  else if is_zero (sort2 x y).2 eps then Except.ok 0
  else if is_equal (sort2 x y).1 1 0.01 ∧ is_equal (sort2 x y).2 1 0.01 then
    Except.ok (Fb11 (sort2 x y).1 (sort2 x y).2)
  else if is_equal (sort2 x y).1 1 0.01 then Except.ok (Fb1 (sort2 x y).2 (sort2 x y).1)
  else if is_equal (sort2 x y).2 1 0.01 then Except.ok (Fb1 (sort2 x y).1 (sort2 x y).2)
  else if is_equal (sort2 x y).1 (sort2 x y).2 0.01 then Except.ok (Fbx (sort2 x y).1 (sort2 x y).2)
  else Except.ok (- (G4 (sort2 x y).1 - G4 (sort2 x y).2) / ((sort2 x y).1 - (sort2 x y).2))

/-- Source: `Fa11(x, y)`, expansion of `Fa` around `(1,1)`. -/
noncomputable def Fa11 (x y : ℝ) : ℝ :=
  0.25 + (-0.2 + (y - 1.0)/6) * (y - 1.0)
    + (x - 1.0) * (-0.2 + (1.0/6.0 - (y - 1.0)/7.0) * (y - 1.0))
    + sqr (x - 1.0) * (1.0/6.0 + (-1.0/7.0 + (y - 1.0)/8.0) * (y - 1.0))

/-- Source: `Fa1(x, y)`, expansion of `Fa` for `y` near 1. -/
noncomputable def Fa1 (x y : ℝ) : ℝ :=
  (-11.0 - 6.0 * Real.log x + x * (18.0 + x * (-9.0 + 2.0 * x))) / (6.0 * pow4 (x - 1.0))
    + (y - 1.0) * (-25.0 - 12.0 * Real.log x + x * (48.0 + x * (-36.0 + x * (16.0 - 3.0 * x))))
        / (12.0 * (pow4 (x - 1.0) * (x - 1.0)))
    + sqr (y - 1.0) * (-137.0 - 60.0 * Real.log x + x * (300.0 + x * (-300.0 + x * (200.0 + x * (-75.0 + 12.0 * x)))))
        / (60.0 * (pow4 (x - 1.0) * (x - 1.0) * (x - 1.0)))

/-- Source: `Fax(x, y)`, expansion of `Fa` around `x = y`. -/
noncomputable def Fax (x y : ℝ) : ℝ :=
  (2.0 + x * (3.0 + 6.0 * Real.log x + x * (-6.0 + x))) / (2.0 * pow4 (x - 1.0) * x)
    - (y - x) * (-1.0 + x * (8.0 + x * (12.0 * Real.log x + x * (-8.0 + x))))
        / (2.0 * (pow4 (x - 1.0) * (x - 1.0)) * sqr x)
    - sqr (y - x) * (-2.0 + x * (15.0 + x * (-60.0 + x * (20.0 - 60.0 * Real.log x + x * (30.0 - 3.0 * x)))))
        / (6.0 * (pow4 (x - 1.0) * (x - 1.0) * (x - 1.0)) * (sqr x * x))

/-- Diagnostic message of `Fa` for negative arguments. -/
def msgFa : String := "Fa: x and y must not be negative!"

/-- Source: `Fa(x, y)`: same structure as `Fb` with the narrower `0.001`
tolerance bands and the finite-difference quotient of `G3`. -/
noncomputable def Fa (x y : ℝ) : Except String ℝ :=
  if x < 0 ∨ y < 0 then Except.error msgFa
  else if is_zero (sort2 x y).2 eps then Except.ok 0
  else if is_equal (sort2 x y).1 1 0.001 ∧ is_equal (sort2 x y).2 1 0.001 then
    Except.ok (Fa11 (sort2 x y).1 (sort2 x y).2)
  else if is_equal (sort2 x y).1 1 0.001 then Except.ok (Fa1 (sort2 x y).2 (sort2 x y).1)
  else if is_equal (sort2 x y).2 1 0.001 then Except.ok (Fa1 (sort2 x y).1 (sort2 x y).2)
  else if is_equal (sort2 x y).1 (sort2 x y).2 0.001 then Except.ok (Fax (sort2 x y).1 (sort2 x y).2)
  else Except.ok (- (G3 (sort2 x y).1 - G3 (sort2 x y).2) / ((sort2 x y).1 - (sort2 x y).2))

/-- Diagnostic message of `f_PS` for negative arguments. -/
def msgfPS : String := "f_PS: z must not be negative!"

/-- Source: `f_PS(z)`, Eq (70) arXiv:hep-ph/0609168: domain error below 0,
exact values at `0` and `1/4`, a real-dilogarithm branch below `1/4` and a
Clausen branch above. -/
noncomputable def f_PS (z : ℝ) : Except String ℝ :=
  if z < 0 then Except.error msgfPS
  else if z = 0 then Except.ok 0.0
  else if z < 0.25 then
    Except.ok (z / Real.sqrt (1 - 4 * z) *
      (4 * dilog (1 + (1 + Real.sqrt (1 - 4 * z)) / (1 - Real.sqrt (1 - 4 * z)))
        - Real.log ((1 + Real.sqrt (1 - 4 * z)) / (1 - Real.sqrt (1 - 4 * z)))
            * (2 * Real.log z - Real.log ((1 + Real.sqrt (1 - 4 * z)) / (1 - Real.sqrt (1 - 4 * z))))
        + -9.8696044010893586))
  else if z = 0.25 then Except.ok 1.3862943611198906
  else
    Except.ok (4 * z / Real.sqrt (-1 + 4 * z) *
      clausen_2 (atan2 (Real.sqrt (-1 + 4 * z)) (2 * z - 1)))

/-- Diagnostic message of `f_S` for negative arguments. -/
def msgfS : String := "f_S: z must not be negative!"

/-- Source: `f_S(z)`, Eq (71) arXiv:hep-ph/0609168. -/
noncomputable def f_S (z : ℝ) : Except String ℝ :=
  if z < 0 then Except.error msgfS
  else if z = 0 then Except.ok 0.0
  else (f_PS z).map (fun fps => (2 * z - 1) * fps - 2 * z * (2 + Real.log z))

/-- Diagnostic message of `f_sferm` for negative arguments. -/
def msgfsferm : String := "f_sferm: z must not be negative!"

/-- Source: `f_sferm(z)`, Eq (72) arXiv:hep-ph/0609168. -/
noncomputable def f_sferm (z : ℝ) : Except String ℝ :=
  if z < 0 then Except.error msgfsferm
  else if z = 0 then Except.ok 0.0
  else (f_PS z).map (fun fps => 0.5 * z * (2 + Real.log z - fps))

/-- Diagnostic message of `F1` for negative arguments. -/
def msgF1 : String := "F1: w must not be negative!"

/-- Source: `F1(w)`, Eq (25) arXiv:1502.04199. -/
noncomputable def F1 (w : ℝ) : Except String ℝ :=
  if w < 0 then Except.error msgF1
  else if w = 0 then Except.ok 0.0
  else if w = 0.25 then Except.ok (-0.5)
  else (f_PS w).map (fun fps => (w - 0.5) * fps - w * (2 + Real.log w))

/-- Source: `F1t(w) = 0.5*f_PS(w)` (no check of its own; the diagnostic and
the NaN for negative arguments come from `f_PS`). -/
noncomputable def F1t (w : ℝ) : Except String ℝ :=
  (f_PS w).map (fun fps => 0.5 * fps)

/-- Diagnostic message of `F2` for negative arguments. -/
def msgF2 : String := "F2: w must not be negative!"

/-- Source: `F2(w)`, Eq (27) arXiv:1502.04199. -/
noncomputable def F2 (w : ℝ) : Except String ℝ :=
  if w < 0 then Except.error msgF2
  else if w = 0.25 then Except.ok (-0.38629436111989062)
  else (f_PS w).map (fun fps => 1 + 0.5 * (Real.log w - fps))

/-- Diagnostic message of `F3` for negative arguments. -/
def msgF3 : String := "F3: w must not be negative!"

/-- Source: `F3(w)`, Eq (28) arXiv:1502.04199. -/
noncomputable def F3 (w : ℝ) : Except String ℝ :=
  if w < 0 then Except.error msgF3
  else if w = 0.25 then Except.ok (19.0/4.0)
  else (f_PS w).map (fun fps => (0.5 + 7.5 * w) * (2 + Real.log w) + (4.25 - 7.5 * w) * fps)

/-- Source (legacy file): `G(wa, wb, x)`, the integrand of the legacy
integral-based fallback. -/
noncomputable def G (wa wb x : ℝ) : ℝ :=
  Real.log ((wa * x + wb * (1 - x)) / (x * (1 - x))) / (x * (1 - x) - wa * x - wb * (1 - x))

/-- Source (legacy file): `Gn(wa, wb, n)`.  The body initializes
`res` to quiet NaN (modelled as `none`), runs the numerical integration of
`x^n * G(wa,wb,x)` inside a `try`/`catch` whose result is never assigned
to `res`, and returns `res`.  The boost-odeint `integrate` helper is
external code, modelled as an arbitrary integrator argument
`(integrand, start, stop, dt) ↦ result`; its result is computed and then
discarded, exactly as in the source. -/
noncomputable def Gn (integrator : (ℝ → ℝ) → ℝ → ℝ → ℝ → ℝ) (wa wb : ℝ) (n : ℤ) : Option ℝ :=
  (fun _ => (none : Option ℝ))
    (integrator (fun x => x ^ n * G wa wb x) (0.0 + eps) (1.0 - eps) eps)

/-! ## Executable branch-dispatch mirrors

The branch-selection structure (and only the selection, not the branch
values) of the one-argument form factors, mirrored over `ℚ` with the exact
tolerance constants of the source, in the source's ordered-check order.
These make the dispatch decidable, so that which branch a given rational
input takes can be settled by `decide`. -/

/-- Branch tag for the one-argument form factors. -/
inductive Region : Type
  | zero : Region
  | nearOne : Region
  | generic : Region
deriving DecidableEq

/-- `eps` over `ℚ` (exact). -/
def epsQ : ℚ := 10 / 2 ^ 52

/-- `is_zero` over `ℚ`. -/
def is_zeroQ (a prec : ℚ) : Prop := |a| < prec

instance (a prec : ℚ) : Decidable (is_zeroQ a prec) :=
  inferInstanceAs (Decidable (|a| < prec))

/-- `is_equal` over `ℚ`. -/
def is_equalQ (a b prec : ℚ) : Prop := is_zeroQ (a - b) (prec * (1 + max |a| |b|))

instance (a b prec : ℚ) : Decidable (is_equalQ a b prec) :=
  inferInstanceAs (Decidable (is_zeroQ _ _))

/-- Branch selection of `F1C`: zero check, then the `0.03` band around 1. -/
def F1C_region (x : ℚ) : Region :=
  if is_zeroQ x epsQ then .zero else if is_equalQ x 1 (3/100) then .nearOne else .generic

/-- Branch selection of `F2C`. -/
def F2C_region (x : ℚ) : Region :=
  if is_zeroQ x epsQ then .zero else if is_equalQ x 1 (3/100) then .nearOne else .generic

/-- Branch selection of `F3C`: the source has no zero check, only the
`0.03` band around 1. -/
def F3C_region (x : ℚ) : Region :=
  if is_equalQ x 1 (3/100) then .nearOne else .generic

/-- Branch selection of `F4C`. -/
def F4C_region (x : ℚ) : Region :=
  if is_zeroQ x epsQ then .zero else if is_equalQ x 1 (3/100) then .nearOne else .generic

/-- Branch selection of `F1N`. -/
def F1N_region (x : ℚ) : Region :=
  if is_zeroQ x epsQ then .zero else if is_equalQ x 1 (3/100) then .nearOne else .generic

/-- Branch selection of `F2N` (band `0.04`). -/
def F2N_region (x : ℚ) : Region :=
  if is_zeroQ x epsQ then .zero else if is_equalQ x 1 (4/100) then .nearOne else .generic

/-- Branch selection of `F3N`. -/
def F3N_region (x : ℚ) : Region :=
  if is_zeroQ x epsQ then .zero else if is_equalQ x 1 (3/100) then .nearOne else .generic

/-- Branch selection of `F4N`. -/
def F4N_region (x : ℚ) : Region :=
  if is_zeroQ x epsQ then .zero else if is_equalQ x 1 (3/100) then .nearOne else .generic

/-- Branch selection of `G3`: the source has no zero check, only the `0.01`
band around 1. -/
def G3_region (x : ℚ) : Region :=
  if is_equalQ x 1 (1/100) then .nearOne else .generic

/-- Branch selection of `G4`: the source has no zero check, only the `0.01`
band around 1. -/
def G4_region (x : ℚ) : Region :=
  if is_equalQ x 1 (1/100) then .nearOne else .generic

/-! ## Basic properties of the comparison and sorting helpers -/

theorem is_zero_iff {a prec : ℝ} : is_zero a prec ↔ |a| < prec := Iff.rfl

theorem is_equal_iff {a b prec : ℝ} :
    is_equal a b prec ↔ |a - b| < prec * (1 + max |a| |b|) := Iff.rfl

theorem is_equal_symm {a b prec : ℝ} (h : is_equal a b prec) : is_equal b a prec := by
  rw [is_equal_iff] at h ⊢
  rwa [abs_sub_comm, max_comm]

theorem is_equal_mono {a b p q : ℝ} (hpq : p ≤ q) (h : is_equal a b p) :
    is_equal a b q := by
  rw [is_equal_iff] at h ⊢
  refine h.trans_le (mul_le_mul_of_nonneg_right hpq ?_)
  positivity

theorem sort2_eq (x y : ℝ) : sort2 x y = (min x y, max x y) := by
  unfold sort2
  split_ifs with h
  · rw [min_eq_right h.le, max_eq_left h.le]
  · rw [min_eq_left (le_of_not_lt h), max_eq_right (le_of_not_lt h)]

theorem sort3_eq (x y z : ℝ) :
    sort3 x y z =
      (min (min x y) (min (max x y) z),
       max (min x y) (min (max x y) z),
       max (max x y) z) := by
  simp only [sort3, sort2_eq]

theorem sort3_swap_left (x y z : ℝ) : sort3 x y z = sort3 y x z := by
  rw [sort3_eq, sort3_eq, min_comm x y, max_comm x y]

theorem sort3_swap_right (x y z : ℝ) : sort3 x y z = sort3 x z y := by
  rw [sort3_eq, sort3_eq]
  rcases le_total x y with hxy | hxy <;> rcases le_total y z with hyz | hyz <;>
    rcases le_total x z with hxz | hxz <;>
    simp only [min_def, max_def, Prod.mk.injEq] <;>
    split_ifs <;> refine ⟨by linarith, by linarith, by linarith⟩

theorem sort3_of_sorted {x y z : ℝ} (hxy : x ≤ y) (hyz : y ≤ z) :
    sort3 x y z = (x, y, z) := by
  rw [sort3_eq, min_eq_left hxy, max_eq_right hxy, min_eq_left hyz,
      min_eq_left hxy, max_eq_right hxy, max_eq_right hyz]

/-! ## Quantitative facts about the modelled `dilog` -/

theorem dilog_term_nonneg {x : ℝ} (hx0 : 0 ≤ x) (n : ℕ) :
    0 ≤ x ^ (n + 1) / ((n : ℝ) + 1) ^ 2 := by positivity

theorem dilog_summable {x : ℝ} (hx0 : 0 ≤ x) (hx1 : x < 1) :
    Summable (fun n : ℕ => x ^ (n + 1) / ((n : ℝ) + 1) ^ 2) := by
  refine Summable.of_nonneg_of_le (dilog_term_nonneg hx0) (fun n => ?_)
    ((summable_geometric_of_lt_one hx0 hx1).mul_left x)
  have h1 : x ^ (n + 1) / ((n : ℝ) + 1) ^ 2 ≤ x ^ (n + 1) := by
    apply div_le_self (by positivity)
    have : (1 : ℝ) ≤ (n : ℝ) + 1 := by
      have : (0 : ℝ) ≤ (n : ℝ) := Nat.cast_nonneg n
      linarith
    nlinarith
  calc x ^ (n + 1) / ((n : ℝ) + 1) ^ 2 ≤ x ^ (n + 1) := h1
    _ = x * x ^ n := by rw [pow_succ]; ring

theorem partial_le_dilog {x : ℝ} (hx0 : 0 ≤ x) (hx1 : x < 1) (K : ℕ) :
    (∑ i ∈ Finset.range K, x ^ (i + 1) / ((i : ℝ) + 1) ^ 2) ≤ dilog x :=
  sum_le_tsum (Finset.range K) (fun i _ => dilog_term_nonneg hx0 i)
    (dilog_summable hx0 hx1)

theorem dilog_le_partial {x : ℝ} (hx0 : 0 ≤ x) (hx1 : x < 1) (K : ℕ) :
    dilog x ≤ (∑ i ∈ Finset.range K, x ^ (i + 1) / ((i : ℝ) + 1) ^ 2)
      + x ^ (K + 1) / (((K : ℝ) + 1) ^ 2) * (1 - x)⁻¹ := by
  have hs := dilog_summable hx0 hx1
  have hsplit := sum_add_tsum_nat_add K hs
  rw [dilog, ← hsplit]
  have htail :
      (tsum (fun i : ℕ => x ^ (i + K + 1) / ((i + K : ℝ) + 1) ^ 2))
        ≤ x ^ (K + 1) / (((K : ℝ) + 1) ^ 2) * (1 - x)⁻¹ := by
    have hgs : Summable (fun i : ℕ => x ^ (K + 1) / (((K : ℝ) + 1) ^ 2) * x ^ i) :=
      (summable_geometric_of_lt_one hx0 hx1).mul_left _
    have hle : ∀ i : ℕ,
        x ^ (i + K + 1) / ((i + K : ℝ) + 1) ^ 2
          ≤ x ^ (K + 1) / (((K : ℝ) + 1) ^ 2) * x ^ i := by
      intro i
      have hxp : x ^ (i + K + 1) = x ^ (K + 1) * x ^ i := by
        rw [← pow_add]; ring_nf
      have hd : ((K : ℝ) + 1) ^ 2 ≤ ((i + K : ℝ) + 1) ^ 2 := by
        have h0 : (0 : ℝ) ≤ (K : ℝ) := Nat.cast_nonneg K
        have h1 : (0 : ℝ) ≤ (i : ℝ) := Nat.cast_nonneg i
        nlinarith
      calc x ^ (i + K + 1) / ((i + K : ℝ) + 1) ^ 2
          ≤ x ^ (i + K + 1) / ((K : ℝ) + 1) ^ 2 :=
            div_le_div_of_nonneg_left (by positivity) (by positivity) hd
        _ = x ^ (K + 1) / (((K : ℝ) + 1) ^ 2) * x ^ i := by rw [hxp]; ring
    have hsub : Summable (fun i : ℕ => x ^ (i + K + 1) / ((i + K : ℝ) + 1) ^ 2) := by
      have := (summable_nat_add_iff K).2 hs
      refine this.congr (fun i => ?_)
      push_cast
      ring_nf
    calc (tsum (fun i : ℕ => x ^ (i + K + 1) / ((i + K : ℝ) + 1) ^ 2))
        ≤ tsum (fun i : ℕ => x ^ (K + 1) / (((K : ℝ) + 1) ^ 2) * x ^ i) :=
          tsum_le_tsum hle hsub hgs
      _ = x ^ (K + 1) / (((K : ℝ) + 1) ^ 2) * tsum (fun i : ℕ => x ^ i) := tsum_mul_left
      _ = x ^ (K + 1) / (((K : ℝ) + 1) ^ 2) * (1 - x)⁻¹ := by
          rw [tsum_geometric_of_lt_one hx0 hx1]
  have hcongr :
      (tsum (fun i : ℕ => x ^ (i + K + 1) / (((i + K : ℕ) : ℝ) + 1) ^ 2))
        = (tsum (fun i : ℕ => x ^ (i + K + 1) / ((i + K : ℝ) + 1) ^ 2)) := by
    refine tsum_congr (fun i => ?_)
    push_cast
    ring_nf
  have := htail
  calc (∑ i ∈ Finset.range K, x ^ (i + 1) / ((i : ℝ) + 1) ^ 2)
        + tsum (fun i : ℕ => x ^ (i + K + 1) / (((i + K : ℕ) : ℝ) + 1) ^ 2)
      ≤ (∑ i ∈ Finset.range K, x ^ (i + 1) / ((i : ℝ) + 1) ^ 2)
        + x ^ (K + 1) / (((K : ℝ) + 1) ^ 2) * (1 - x)⁻¹ := by
        rw [hcongr]; exact add_le_add_left htail _
    _ = _ := rfl

/-! ## Elementary logarithm bounds -/

theorem log_one_sub_le {s : ℝ} (hs : s < 1) : Real.log (1 - s) ≤ -s := by
  have h := Real.log_le_sub_one_of_pos (show (0 : ℝ) < 1 - s by linarith)
  linarith

theorem neg_div_le_log_one_sub {s : ℝ} (hs : s < 1) :
    -(s / (1 - s)) ≤ Real.log (1 - s) := by
  have hpos : (0 : ℝ) < 1 - s := by linarith
  have h := Real.log_le_sub_one_of_pos (show (0 : ℝ) < (1 - s)⁻¹ by positivity)
  rw [Real.log_inv] at h
  have hinv : (1 - s)⁻¹ - 1 = s / (1 - s) := by
    field_simp
  rw [hinv] at h
  linarith

/-! ## Further helper lemmas -/

theorem sort2_comm (x y : ℝ) : sort2 x y = sort2 y x := by
  rw [sort2_eq, sort2_eq, min_comm, max_comm]

theorem sort2_of_le {x y : ℝ} (h : x ≤ y) : sort2 x y = (x, y) := by
  rw [sort2_eq, min_eq_left h, max_eq_right h]

theorem Phi_swap12 (x y z : ℝ) : Phi x y z = Phi y x z := by
  unfold Phi
  rw [sort3_swap_left]

theorem Phi_swap23 (x y z : ℝ) : Phi x y z = Phi x z y := by
  unfold Phi
  rw [sort3_swap_right]

theorem Fa_comm (x y : ℝ) : Fa x y = Fa y x := by
  by_cases h : x < 0 ∨ y < 0
  · unfold Fa
    rw [if_pos h, if_pos h.symm]
  · have h' : ¬(y < 0 ∨ x < 0) := fun hc => h hc.symm
    unfold Fa
    rw [if_neg h, if_neg h', sort2_comm]

theorem Fb_comm (x y : ℝ) : Fb x y = Fb y x := by
  by_cases h : x < 0 ∨ y < 0
  · unfold Fb
    rw [if_pos h, if_pos h.symm]
  · have h' : ¬(y < 0 ∨ x < 0) := fun hc => h hc.symm
    unfold Fb
    rw [if_neg h, if_neg h', sort2_comm]

/-! ## Claim theorems -/

/-- C10: for every integrator (the boost-odeint `integrate` being external,
any integration routine whatsoever) and all inputs `(wa, wb, n)`, the legacy
integral-based fallback `Gn` returns NaN (modelled `none`): the result of
the numerical integration is computed but never assigned to the returned
variable `res`, which keeps its quiet-NaN initialization whether or not the
integration converges. -/
theorem Gn_always_nan :
    ∀ (integrator : (ℝ → ℝ) → ℝ → ℝ → ℝ → ℝ) (wa wb : ℝ) (n : ℤ),
      Gn integrator wa wb n = none := by
  intro integrator wa wb n
  rfl

/-- C6: every call to `Fa`, `Fb`, `f_PS`, `f_S`, `f_sferm`, `F1`, `F1t`,
`F2` or `F3` with a negative argument reports the "must not be negative"
diagnostic through the side channel and returns quiet NaN, both modelled by
the `Except.error` value carrying the diagnostic text (`F1t` inherits the
diagnostic of `f_PS`, which it wraps).  No exception crosses the layer: in
the embedding each function is total and returns this value. -/
theorem negative_argument_error :
    (∀ x y : ℝ, x < 0 ∨ y < 0 →
      Fa x y = Except.error msgFa ∧ Fb x y = Except.error msgFb) ∧
    (∀ z : ℝ, z < 0 →
      f_PS z = Except.error msgfPS ∧ f_S z = Except.error msgfS ∧
      f_sferm z = Except.error msgfsferm ∧ F1 z = Except.error msgF1 ∧
      F1t z = Except.error msgfPS ∧ F2 z = Except.error msgF2 ∧
      F3 z = Except.error msgF3) := by
  constructor
  · intro x y h
    constructor
    · unfold Fa; rw [if_pos h]
    · unfold Fb; rw [if_pos h]
  · intro z hz
    refine ⟨?_, ?_, ?_, ?_, ?_, ?_, ?_⟩
    · unfold f_PS; rw [if_pos hz]
    · unfold f_S; rw [if_pos hz]
    · unfold f_sferm; rw [if_pos hz]
    · unfold F1; rw [if_pos hz]
    · unfold F1t f_PS; rw [if_pos hz]; rfl
    · unfold F2; rw [if_pos hz]
    · unfold F3; rw [if_pos hz]

/-- Witness for C6 at the spec's own test inputs `Fa(-1, 1)` and
`f_PS(-1)` (and the companions at the same inputs). -/
theorem negative_argument_error_witness :
    Fa (-1) 1 = Except.error msgFa ∧ f_PS (-1) = Except.error msgfPS :=
  ⟨(negative_argument_error.1 (-1) 1 (Or.inl (by norm_num))).1,
   (negative_argument_error.2 (-1) (by norm_num)).1⟩

/-- C5: `Phi(x,y,z)` is invariant under every permutation of `(x,y,z)` (the
implementation canonicalizes by sorting the three arguments), and
`Fa(x,y) = Fa(y,x)`, `Fb(x,y) = Fb(y,x)` (two-argument sorting), for all
non-negative arguments. -/
theorem symmetry_of_Phi_Fa_Fb :
    (∀ x y z : ℝ, 0 ≤ x → 0 ≤ y → 0 ≤ z →
      Phi x y z = Phi y x z ∧ Phi x y z = Phi x z y ∧
      Phi x y z = Phi y z x ∧ Phi x y z = Phi z x y ∧
      Phi x y z = Phi z y x) ∧
    (∀ x y : ℝ, 0 ≤ x → 0 ≤ y → Fa x y = Fa y x ∧ Fb x y = Fb y x) := by
  constructor
  · intro x y z _ _ _
    refine ⟨Phi_swap12 x y z, Phi_swap23 x y z, ?_, ?_, ?_⟩
    · rw [Phi_swap12, Phi_swap23]
    · rw [Phi_swap23, Phi_swap12]
    · rw [Phi_swap23, Phi_swap12, Phi_swap23]
  · intro x y _ _
    exact ⟨Fa_comm x y, Fb_comm x y⟩

/-- Witness for C5 at concrete non-negative inputs. -/
theorem symmetry_of_Phi_Fa_Fb_witness :
    Phi 1 2 3 = Phi 3 1 2 ∧ Fa 2 5 = Fa 5 2 :=
  ⟨((symmetry_of_Phi_Fa_Fb.1 1 2 3 (by norm_num) (by norm_num) (by norm_num)).2.2.2.1),
   (symmetry_of_Phi_Fa_Fb.2 2 5 (by norm_num) (by norm_num)).1⟩

/-- C7: the exact special values, each produced by the explicit branch for
that input: `F1C(0) = 4`, `F2C(0) = 0`, `F1N(0) = 2`, `F2N(0) = 3`,
`F3N(0) = 8/105`, `f_PS(0) = 0`, `f_PS(1/4) = 1.3862943611198906` (the
double-precision value of `ln 4`, as the accompanying bound states),
`F1(1/4) = -1/2`, `F2(1/4) = -0.38629436111989062` (the double value of
`1 - ln 4`) and `F3(1/4) = 19/4`. -/
theorem known_exact_values :
    F1C 0 = 4 ∧ F2C 0 = 0 ∧ F1N 0 = 2 ∧ F2N 0 = 3 ∧ F3N 0 = 8/105 ∧
    f_PS 0 = Except.ok 0 ∧
    f_PS (1/4) = Except.ok 1.3862943611198906 ∧
    |(1.3862943611198906 : ℝ) - Real.log 4| < 1/10^9 ∧
    F1 (1/4) = Except.ok (-(1/2)) ∧
    F2 (1/4) = Except.ok (-0.38629436111989062) ∧
    |(-0.38629436111989062 : ℝ) - (1 - Real.log 4)| < 1/10^9 ∧
    F3 (1/4) = Except.ok (19/4) := by
  have hlog4 : Real.log 4 = 2 * Real.log 2 := by
    rw [show (4 : ℝ) = 2 ^ 2 by norm_num, Real.log_pow]
    push_cast
    ring
  have hl2lo := Real.log_two_gt_d9
  have hl2hi := Real.log_two_lt_d9
  refine ⟨?_, ?_, ?_, ?_, ?_, ?_, ?_, ?_, ?_, ?_, ?_, ?_⟩
  · norm_num [F1C, is_zero, eps]
  · norm_num [F2C, is_zero, eps]
  · norm_num [F1N, is_zero, eps]
  · norm_num [F2N, is_zero, eps]
  · norm_num [F3N, is_zero, eps]
  · norm_num [f_PS]
  · norm_num [f_PS]
  · rw [hlog4, abs_lt]
    constructor <;> norm_num <;> linarith
  · norm_num [F1]
  · norm_num [F2]
  · rw [hlog4, abs_lt]
    constructor <;> norm_num <;> linarith
  · norm_num [F3]

theorem is_equal_self (y : ℝ) {prec : ℝ} (hp : 0 < prec) : is_equal y y prec := by
  rw [is_equal_iff, sub_self, abs_zero]
  positivity

/-- C4: off the special regions (no argument within `eps` of zero, no
argument in the near-1 band, arguments not in the near-equal band), `Fa`
is the finite-difference quotient `-(G3(x)-G3(y))/(x-y)` and `Fb` is
`-(G4(x)-G4(y))/(x-y)`, where `G3`, `G4` are the implemented functions.
The excluded bands are stated with `Fb`'s tolerance `0.01`, which contains
`Fa`'s narrower `0.001` bands. -/
theorem Fa_Fb_generic_quotient :
    ∀ x y : ℝ, 0 ≤ x → 0 ≤ y →
      ¬is_zero x eps → ¬is_zero y eps →
      ¬is_equal x 1 0.01 → ¬is_equal y 1 0.01 → ¬is_equal x y 0.01 →
      Fa x y = Except.ok (-(G3 x - G3 y) / (x - y)) ∧
      Fb x y = Except.ok (-(G4 x - G4 y) / (x - y)) := by
  intro x y hx hy hzx hzy h1x h1y hxy
  have hneg : ¬(x < 0 ∨ y < 0) := by push_neg; exact ⟨hx, hy⟩
  have h1x' : ¬is_equal x 1 0.001 := fun hc => h1x (is_equal_mono (by norm_num) hc)
  have h1y' : ¬is_equal y 1 0.001 := fun hc => h1y (is_equal_mono (by norm_num) hc)
  have hxy' : ¬is_equal x y 0.001 := fun hc => hxy (is_equal_mono (by norm_num) hc)
  have hyx : ¬is_equal y x 0.01 := fun hc => hxy (is_equal_symm hc)
  have hyx' : ¬is_equal y x 0.001 := fun hc => hxy' (is_equal_symm hc)
  have hxyne : x ≠ y := fun he => hxy (he ▸ is_equal_self y (by norm_num))
  have hquot3 : -(G3 y - G3 x) / (y - x) = -(G3 x - G3 y) / (x - y) := by
    have h1 : x - y ≠ 0 := sub_ne_zero.mpr hxyne
    have h2 : y - x ≠ 0 := sub_ne_zero.mpr hxyne.symm
    field_simp
    ring
  have hquot4 : -(G4 y - G4 x) / (y - x) = -(G4 x - G4 y) / (x - y) := by
    have h1 : x - y ≠ 0 := sub_ne_zero.mpr hxyne
    have h2 : y - x ≠ 0 := sub_ne_zero.mpr hxyne.symm
    field_simp
    ring
  rcases le_total x y with hle | hle
  · constructor
    · unfold Fa
      rw [if_neg hneg, sort2_of_le hle]
      rw [if_neg hzy, if_neg (fun hc => h1x' hc.1), if_neg h1x', if_neg h1y', if_neg hxy']
    · unfold Fb
      rw [if_neg hneg, sort2_of_le hle]
      rw [if_neg hzy, if_neg (fun hc => h1x hc.1), if_neg h1x, if_neg h1y, if_neg hxy]
  · constructor
    · unfold Fa
      rw [if_neg hneg, sort2_comm, sort2_of_le hle]
      rw [if_neg hzx, if_neg (fun hc => h1y' hc.1), if_neg h1y', if_neg h1x', if_neg hyx']
      exact congrArg Except.ok hquot3
    · unfold Fb
      rw [if_neg hneg, sort2_comm, sort2_of_le hle]
      rw [if_neg hzx, if_neg (fun hc => h1y hc.1), if_neg h1y, if_neg h1x, if_neg hyx]
      exact congrArg Except.ok hquot4

/-- Witness for C4 at `(x, y) = (2, 3)`. -/
theorem Fa_Fb_generic_quotient_witness :
    Fa 2 3 = Except.ok (-(G3 2 - G3 3) / (2 - 3)) ∧
    Fb 2 3 = Except.ok (-(G4 2 - G4 3) / (2 - 3)) :=
  Fa_Fb_generic_quotient 2 3 (by norm_num) (by norm_num)
    (by norm_num [is_zero, eps]) (by norm_num [is_zero, eps])
    (by norm_num [is_equal, is_zero, abs_of_nonneg, abs_of_nonpos]) (by norm_num [is_equal, is_zero, abs_of_nonneg, abs_of_nonpos])
    (by norm_num [is_equal, is_zero, abs_of_nonneg, abs_of_nonpos])

/-- C2 (amended): `Fa` and `Fb` return 0 exactly when, after sorting, the
larger argument is within `eps` of zero — equivalently (arguments being
non-negative) when both arguments are ≈ 0.  The zero test of the source is
`is_zero(y, eps)` applied after `sort(x, y)`, i.e. to `max x y`. -/
theorem Fa_Fb_zero_when_both_small :
    ∀ x y : ℝ, 0 ≤ x → 0 ≤ y → is_zero (max x y) eps →
      Fa x y = Except.ok 0 ∧ Fb x y = Except.ok 0 := by
  intro x y hx hy hz
  have hneg : ¬(x < 0 ∨ y < 0) := by push_neg; exact ⟨hx, hy⟩
  have hz' : is_zero (sort2 x y).2 eps := by rw [sort2_eq]; exact hz
  constructor
  · unfold Fa
    rw [if_neg hneg, if_pos hz']
  · unfold Fb
    rw [if_neg hneg, if_pos hz']

/-- Witness for the amended C2 at `(0, 10⁻¹⁶)` (both arguments ≈ 0). -/
theorem Fa_Fb_zero_when_both_small_witness :
    Fa 0 (1/10^16) = Except.ok 0 ∧ Fb 0 (1/10^16) = Except.ok 0 :=
  Fa_Fb_zero_when_both_small 0 (1/10^16) (by norm_num) (by norm_num)
    (by norm_num [is_zero, eps, abs_of_nonneg])

theorem log_pow16_bounds :
    53 * Real.log 2 ≤ Real.log ((10:ℝ)^16) ∧
    Real.log ((10:ℝ)^16) ≤ 54 * Real.log 2 := by
  constructor
  · calc 53 * Real.log 2 = Real.log ((2:ℝ)^(53:ℕ)) := by
          rw [Real.log_pow]; push_cast; ring
      _ ≤ Real.log ((10:ℝ)^16) := Real.log_le_log (by positivity) (by norm_num)
  · calc Real.log ((10:ℝ)^16) ≤ Real.log ((2:ℝ)^(54:ℕ)) :=
          Real.log_le_log (by positivity) (by norm_num)
      _ = 54 * Real.log 2 := by rw [Real.log_pow]; push_cast; ring

theorem log_five_bounds :
    2 * Real.log 2 ≤ Real.log 5 ∧ Real.log 5 ≤ 3 * Real.log 2 := by
  constructor
  · calc 2 * Real.log 2 = Real.log ((2:ℝ)^(2:ℕ)) := by
          rw [Real.log_pow]; push_cast; ring
      _ ≤ Real.log 5 := Real.log_le_log (by positivity) (by norm_num)
  · calc Real.log 5 ≤ Real.log ((2:ℝ)^(3:ℕ)) :=
          Real.log_le_log (by positivity) (by norm_num)
      _ = 3 * Real.log 2 := by rw [Real.log_pow]; push_cast; ring

theorem log_small_arg :
    Real.log ((1:ℝ)/10^16) = -Real.log ((10:ℝ)^16) := by
  rw [show ((1:ℝ)/10^16) = ((10:ℝ)^16)⁻¹ by norm_num, Real.log_inv]

/-- Value of `G3` at the near-zero argument `10⁻¹⁶`: the generic branch. -/
theorem G3_at_small : G3 (1/10^16) =
    1.0 / (2.0 * pow3 ((1:ℝ)/10^16 - 1.0)) *
      (((1:ℝ)/10^16 - 1.0) * ((1:ℝ)/10^16 - 3.0) + 2.0 * Real.log ((1:ℝ)/10^16)) := by
  unfold G3
  rw [if_neg (by norm_num [is_equal, is_zero, abs_of_nonneg, abs_of_nonpos])]

theorem G3_at_small_ge : (30:ℝ) ≤ G3 (1/10^16) := by
  rw [G3_at_small]
  set a : ℝ := (1:ℝ)/10^16 with ha
  clear_value a
  have hL := Real.log_two_gt_d9
  have h16 := log_pow16_bounds
  have hlog : Real.log a ≤ -(53 * Real.log 2) := by
    rw [ha, log_small_arg]
    linarith [h16.1]
  have hnum : (a - 1.0) * (a - 3.0) + 2.0 * Real.log a ≤ -70 := by
    have hP : (a - 1.0) * (a - 3.0) ≤ 3.001 := by rw [ha]; norm_num
    linarith
  have hden_lo : (-1 : ℝ) ≤ pow3 (a - 1.0) := by rw [ha]; norm_num [pow3]
  have hden_hi : pow3 (a - 1.0) ≤ -0.999 := by rw [ha]; norm_num [pow3]
  have hden_ne : (2.0 * pow3 (a - 1.0)) < 0 := by nlinarith
  have hrw : 1.0 / (2.0 * pow3 (a - 1.0)) *
      ((a - 1.0) * (a - 3.0) + 2.0 * Real.log a)
      = ((a - 1.0) * (a - 3.0) + 2.0 * Real.log a) / (2.0 * pow3 (a - 1.0)) := by
    ring
  rw [hrw, le_div_iff_of_neg hden_ne]
  nlinarith

theorem G3_at_five : G3 5 ≤ 1 := by
  unfold G3
  rw [if_neg (by norm_num [is_equal, is_zero, abs_of_nonneg, abs_of_nonpos])]
  have h5 := log_five_bounds
  have hL := Real.log_two_lt_d9
  have hL' := Real.log_two_gt_d9
  rw [show (5:ℝ) - 1.0 = 4 by norm_num]
  rw [show pow3 (4:ℝ) = 64 by norm_num [pow3]]
  nlinarith

theorem G4_at_small_ge : (0.49:ℝ) ≤ G4 (1/10^16) := by
  unfold G4
  rw [if_neg (by norm_num [is_equal, is_zero, abs_of_nonneg, abs_of_nonpos])]
  set a : ℝ := (1:ℝ)/10^16 with ha
  clear_value a
  have hL := Real.log_two_gt_d9
  have hLhi := Real.log_two_lt_d9
  have h16 := log_pow16_bounds
  have ha0 : (0:ℝ) < a := by rw [ha]; norm_num
  have hlog_lo : -(54 * Real.log 2) ≤ Real.log a := by
    rw [ha, log_small_arg]; linarith [h16.2]
  have hlog_hi : Real.log a ≤ -(53 * Real.log 2) := by
    rw [ha, log_small_arg]; linarith [h16.1]
  have hnum_hi : (a - 1.0) * (a + 1.0) - 2.0 * a * Real.log a ≤ -0.999 := by
    have h2 : a * -(54 * Real.log 2) ≤ a * Real.log a :=
      mul_le_mul_of_nonneg_left hlog_lo ha0.le
    have h3 : a * (54 * Real.log 2) ≤ 0.0001 := by
      rw [ha]; nlinarith
    have h4 : a * a ≤ 0.0001 := by rw [ha]; norm_num
    nlinarith
  have hnum_lo : (-1:ℝ) ≤ (a - 1.0) * (a + 1.0) - 2.0 * a * Real.log a := by
    have hlgneg : Real.log a < 0 := by nlinarith
    have h5 : 0 ≤ a * -Real.log a := mul_nonneg ha0.le (by linarith)
    nlinarith [sq_nonneg a]
  have hden_lo : (-1 : ℝ) ≤ pow3 (a - 1.0) := by rw [ha]; norm_num [pow3]
  have hden_hi : pow3 (a - 1.0) ≤ -0.999 := by rw [ha]; norm_num [pow3]
  have hden_ne : (2.0 * pow3 (a - 1.0)) < 0 := by nlinarith
  have hrw : 1.0 / (2.0 * pow3 (a - 1.0)) *
      ((a - 1.0) * (a + 1.0) - 2.0 * a * Real.log a)
      = ((a - 1.0) * (a + 1.0) - 2.0 * a * Real.log a) / (2.0 * pow3 (a - 1.0)) := by
    ring
  rw [hrw, le_div_iff_of_neg hden_ne]
  nlinarith

theorem G4_at_five : G4 5 ≤ 0.08 := by
  unfold G4
  rw [if_neg (by norm_num [is_equal, is_zero, abs_of_nonneg, abs_of_nonpos])]
  have h5 := log_five_bounds
  have hL := Real.log_two_lt_d9
  have hL' := Real.log_two_gt_d9
  rw [show (5:ℝ) - 1.0 = 4 by norm_num]
  rw [show pow3 (4:ℝ) = 64 by norm_num [pow3]]
  nlinarith

/-- C2 counterexample: at `(x, y) = (10⁻¹⁶, 5)` the first argument is ≈ 0
(within the library's `eps` tolerance) but `Fa` and `Fb` do not return 0:
the `is_zero` test is applied only to the larger sorted argument, so the
call falls through to the generic finite-difference branch, whose value at
this input is strictly positive (in C arithmetic the same branch evaluates
`log` near `0` and likewise does not produce 0). -/
theorem Fa_Fb_zero_counterexample :
    is_zero ((1:ℝ)/10^16) eps ∧
    Fa (1/10^16) 5 ≠ Except.ok 0 ∧ Fb (1/10^16) 5 ≠ Except.ok 0 := by
  refine ⟨by norm_num [is_zero, eps, abs_of_nonneg], ?_, ?_⟩
  · have heval : Fa (1/10^16) 5 =
        Except.ok (-(G3 (1/10^16) - G3 5) / ((1:ℝ)/10^16 - 5)) := by
      unfold Fa
      rw [if_neg (by norm_num), sort2_of_le (by norm_num)]
      rw [if_neg (by norm_num [is_zero, eps]),
          if_neg (fun hc => by have := hc.1; revert this; norm_num [is_equal, is_zero, abs_of_nonneg, abs_of_nonpos]),
          if_neg (by norm_num [is_equal, is_zero, abs_of_nonneg, abs_of_nonpos]),
          if_neg (by norm_num [is_equal, is_zero, abs_of_nonneg, abs_of_nonpos]),
          if_neg (by norm_num [is_equal, is_zero, abs_of_nonneg, abs_of_nonpos])]
    rw [heval]
    intro hcontra
    have hval : -(G3 (1/10^16) - G3 5) / ((1:ℝ)/10^16 - 5) = 0 := by
      injection hcontra
    have hpos : 0 < -(G3 (1/10^16) - G3 5) / ((1:ℝ)/10^16 - 5) := by
      have h1 : 0 < G3 (1/10^16) - G3 5 := by
        linarith [G3_at_small_ge, G3_at_five]
      have h2 : -(G3 (1/10^16) - G3 5) / ((1:ℝ)/10^16 - 5)
          = (G3 (1/10^16) - G3 5) / (5 - (1:ℝ)/10^16) := by
        rw [show ((1:ℝ)/10^16 - 5) = -(5 - (1:ℝ)/10^16) by ring, div_neg, neg_div,
            neg_neg]
      rw [h2]
      exact div_pos h1 (by norm_num)
    linarith
  · have heval : Fb (1/10^16) 5 =
        Except.ok (-(G4 (1/10^16) - G4 5) / ((1:ℝ)/10^16 - 5)) := by
      unfold Fb
      rw [if_neg (by norm_num), sort2_of_le (by norm_num)]
      rw [if_neg (by norm_num [is_zero, eps]),
          if_neg (fun hc => by have := hc.1; revert this; norm_num [is_equal, is_zero, abs_of_nonneg, abs_of_nonpos]),
          if_neg (by norm_num [is_equal, is_zero, abs_of_nonneg, abs_of_nonpos]),
          if_neg (by norm_num [is_equal, is_zero, abs_of_nonneg, abs_of_nonpos]),
          if_neg (by norm_num [is_equal, is_zero, abs_of_nonneg, abs_of_nonpos])]
    rw [heval]
    intro hcontra
    have hval : -(G4 (1/10^16) - G4 5) / ((1:ℝ)/10^16 - 5) = 0 := by
      injection hcontra
    have hpos : 0 < -(G4 (1/10^16) - G4 5) / ((1:ℝ)/10^16 - 5) := by
      have h1 : 0 < G4 (1/10^16) - G4 5 := by
        linarith [G4_at_small_ge, G4_at_five]
      have h2 : -(G4 (1/10^16) - G4 5) / ((1:ℝ)/10^16 - 5)
          = (G4 (1/10^16) - G4 5) / (5 - (1:ℝ)/10^16) := by
        rw [show ((1:ℝ)/10^16 - 5) = -(5 - (1:ℝ)/10^16) by ring, div_neg, neg_div,
            neg_neg]
      rw [h2]
      exact div_pos h1 (by norm_num)
    linarith

/-- C3 counterexample: at `x = 0` the branch dispatch of `F3C`, `G3` and
`G4` selects the generic closed-form branch (whose formula contains
`log x`), not an explicit zero branch — the three functions have no
`is_zero` check at all. -/
theorem zero_check_counterexample :
    F3C_region 0 = Region.generic ∧ G3_region 0 = Region.generic ∧
    G4_region 0 = Region.generic := by
  refine ⟨?_, ?_, ?_⟩ <;>
    norm_num [F3C_region, G3_region, G4_region, is_equalQ, is_zeroQ, epsQ]

/-- C3 (amended): of the ten one-argument form factors, the seven
`F1C, F2C, F4C, F1N, F2N, F3N, F4N` reach `x = 0` through an explicit
`is_zero` check and return their finite limits
(`4, 0, 0, 2, 3, 8/105, -3/4·(-9 + π²)` — the last with the source's double
literal for `π²`); `F3C`, `G3` and `G4` have no zero check, and their
dispatch sends `x = 0` to the generic branch. -/
theorem zero_check_values :
    (F1C_region 0 = Region.zero ∧ F2C_region 0 = Region.zero ∧
     F4C_region 0 = Region.zero ∧ F1N_region 0 = Region.zero ∧
     F2N_region 0 = Region.zero ∧ F3N_region 0 = Region.zero ∧
     F4N_region 0 = Region.zero) ∧
    (F1C 0 = 4 ∧ F2C 0 = 0 ∧ F4C 0 = 0 ∧ F1N 0 = 2 ∧ F2N 0 = 3 ∧
     F3N 0 = 8/105 ∧ F4N 0 = -3/4 * (-9 + 9.8696044010893586)) ∧
    (F3C_region 0 = Region.generic ∧ G3_region 0 = Region.generic ∧
     G4_region 0 = Region.generic) := by
  refine ⟨by
      refine ⟨?_, ?_, ?_, ?_, ?_, ?_, ?_⟩ <;>
        norm_num [F1C_region, F2C_region, F4C_region, F1N_region, F2N_region,
          F3N_region, F4N_region, is_equalQ, is_zeroQ, epsQ],
    ⟨?_, ?_, ?_, ?_, ?_, ?_, ?_⟩,
    by
      refine ⟨?_, ?_, ?_⟩ <;>
        norm_num [F3C_region, G3_region, G4_region, is_equalQ, is_zeroQ, epsQ]⟩
  · norm_num [F1C, is_zero, eps]
  · norm_num [F2C, is_zero, eps]
  · norm_num [F4C, is_zero, eps]
  · norm_num [F1N, is_zero, eps]
  · norm_num [F2N, is_zero, eps]
  · norm_num [F3N, is_zero, eps]
  · norm_num [F4N, is_zero, eps]

theorem eps_pos : (0:ℝ) < eps := by norm_num [eps]

/-- Value of `Phi` on the fully degenerate diagonal: the normalized ratios
are `u = v = 1`, the discriminant is `λ²(1,1) = -3`, and `phi_neg` hits its
`u ≈ 1 ≈ v` constant branch, so
`Phi(x,x,x) = 2.343907238689459 · x · (-3) / 2`. -/
theorem Phi_diag (x : ℝ) (hx : 0 < x) :
    Phi x x x = 2.343907238689459 * x * (-3) / 2 := by
  unfold Phi
  rw [sort3_of_sorted le_rfl le_rfl]
  dsimp only
  rw [div_self hx.ne']
  have hl : lambda_2 1 1 = -3 := by norm_num [lambda_2, sqr]
  have hphi : phi_uv 1 1 = 2.343907238689459 := by
    unfold phi_uv
    simp only [hl]
    rw [if_neg (by norm_num [is_zero, eps]), if_neg (by norm_num)]
    unfold phi_neg
    rw [if_pos ⟨is_equal_self 1 eps_pos, is_equal_self 1 eps_pos⟩]
  rw [hphi, hl]

/-- C8 (amended): for every `x > 0`, `Phi(x,x,x)` is the finite (never NaN)
value `2.343907238689459 · x · (-3)/2 = -(3/2)·2.343907238689459·x`
(≈ `-3.5159·x`): the fully-degenerate branch constant `2.343907238689459`
enters multiplied by `z·λ²(1,1)/2 = -3x/2`, not by `x` alone. -/
theorem Phi_diag_value :
    ∀ x : ℝ, 0 < x → Phi x x x = 2.343907238689459 * x * (-3) / 2 :=
  fun x hx => Phi_diag x hx

/-- Witness for the amended C8 at `x = 2`. -/
theorem Phi_diag_value_witness :
    Phi 2 2 2 = 2.343907238689459 * 2 * (-3) / 2 :=
  Phi_diag_value 2 (by norm_num)

/-- C8 counterexample: `Phi(1,1,1) = -(3/2)·2.343907238689459 < 0`, which
is not (even approximately) the claimed `1·2.3439… > 0`. -/
theorem Phi_diag_counterexample :
    Phi 1 1 1 = 2.343907238689459 * 1 * (-3) / 2 ∧ Phi 1 1 1 < 0 := by
  have h := Phi_diag 1 one_pos
  exact ⟨h, by rw [h]; norm_num⟩

/-- C1 (amended): whenever the Källén discriminant of the sorted,
normalized ratios is within the absolute tolerance `eps = 10·2⁻⁵²` of zero
(the source's `is_zero(lambda, eps)` test — not a relative `1e-11` test),
`phi_uv` returns 0 and `Phi` returns exactly 0 (in particular never NaN). -/
theorem Phi_zero_on_degenerate_discriminant :
    ∀ x y z : ℝ,
      is_zero (lambda_2 ((sort3 x y z).1 / (sort3 x y z).2.2)
        ((sort3 x y z).2.1 / (sort3 x y z).2.2)) eps →
      Phi x y z = 0 := by
  intro x y z h
  unfold Phi phi_uv
  rw [if_pos h]
  ring

/-- Witness for the amended C1 at `(x,y,z) = (1/4, 1/4, 1)`, where the
normalized discriminant is exactly 0. -/
theorem Phi_zero_on_degenerate_discriminant_witness :
    is_zero (lambda_2 ((sort3 (1/4) (1/4) 1).1 / (sort3 (1/4) (1/4) 1).2.2)
      ((sort3 (1/4) (1/4) 1).2.1 / (sort3 (1/4) (1/4) 1).2.2)) eps ∧
    Phi (1/4) (1/4) 1 = 0 := by
  have h : is_zero (lambda_2 ((sort3 (1/4:ℝ) (1/4) 1).1 / (sort3 (1/4:ℝ) (1/4) 1).2.2)
      ((sort3 (1/4:ℝ) (1/4) 1).2.1 / (sort3 (1/4:ℝ) (1/4) 1).2.2)) eps := by
    rw [sort3_of_sorted le_rfl (by norm_num)]
    norm_num [is_zero, lambda_2, sqr, eps]
  exact ⟨h, Phi_zero_on_degenerate_discriminant (1/4) (1/4) 1 h⟩

theorem qdrt_eps_lt : qdrt_eps < 1/4096 := by
  unfold qdrt_eps
  rw [Real.sqrt_lt' (by norm_num : (0:ℝ) < 1/4096)]
  rw [Real.sqrt_lt' (by norm_num : (0:ℝ) < ((1:ℝ)/4096)^2)]
  norm_num [eps]

theorem dilog_x0_le : dilog ((499999:ℝ)/10^6) ≤ 0.5822392 := by
  have h := dilog_le_partial (x := (499999:ℝ)/10^6) (by norm_num) (by norm_num) 16
  push_cast at h
  have hsum : (∑ i ∈ Finset.range 16,
      ((499999:ℝ)/10^6) ^ (i + 1) / ((i : ℝ) + 1) ^ 2) ≤ 0.5822391 := by
    simp only [Finset.sum_range_succ, Finset.sum_range_zero]
    push_cast
    norm_num
  have htail : ((499999:ℝ)/10^6) ^ (16 + 1) / ((16 : ℝ) + 1) ^ 2
      * (1 - (499999:ℝ)/10^6)⁻¹ ≤ 6/10^8 := by
    norm_num
  linarith

theorem lam_at_counterexample :
    lambda_2 ((1:ℝ)/4 - 1/10^12) ((1:ℝ)/4 - 1/10^12) = 4/10^12 := by
  norm_num [lambda_2, sqr]

theorem phi_pos_at_counterexample :
    0 < phi_pos ((1:ℝ)/4 - 1/10^12) ((1:ℝ)/4 - 1/10^12) := by
  have hsqrt : Real.sqrt ((4:ℝ)/10^12) = 2/10^6 := by
    rw [show ((4:ℝ)/10^12) = ((2:ℝ)/10^6)^2 by norm_num]
    exact Real.sqrt_sq (by norm_num)
  have hne1 : ¬ is_equal ((1:ℝ)/4 - 1/10^12) 1 eps := by
    norm_num [is_equal, is_zero, eps, abs_of_nonneg, abs_of_nonpos]
  have hnlt : ¬ (((1:ℝ)/4 - 1/10^12) < qdrt_eps) :=
    not_lt.mpr (le_of_lt (lt_of_lt_of_le qdrt_eps_lt (by norm_num)))
  unfold phi_pos
  rw [if_neg (fun hc => hne1 hc.1), if_pos (is_equal_self _ eps_pos), if_neg hnlt]
  rw [lam_at_counterexample, hsqrt]
  rw [show (0.5:ℝ) * (1 - 2/10^6) = 499999/10^6 by norm_num]
  apply div_pos ?_ (by norm_num)
  have hL_lo := Real.log_two_gt_d9
  have hL_hi := Real.log_two_lt_d9
  have hL_nn : (0:ℝ) ≤ Real.log 2 := by linarith
  have hloga : Real.log ((1:ℝ)/4 - 1/10^12)
      = Real.log (1 - (4:ℝ)/10^12) - 2 * Real.log 2 := by
    rw [show ((1:ℝ)/4 - 1/10^12) = (1 - (4:ℝ)/10^12)/4 by norm_num,
        Real.log_div (by norm_num) (by norm_num),
        show (4:ℝ) = 2^(2:ℕ) by norm_num, Real.log_pow]
    push_cast
    ring
  have hlogx : Real.log ((499999:ℝ)/10^6)
      = Real.log (1 - (2:ℝ)/10^6) - Real.log 2 := by
    rw [show ((499999:ℝ)/10^6) = (1 - (2:ℝ)/10^6)/2 by norm_num,
        Real.log_div (by norm_num) (by norm_num)]
  have hc_ub : Real.log (1 - (4:ℝ)/10^12) ≤ 0 := by
    have h := log_one_sub_le (s := (4:ℝ)/10^12) (by norm_num)
    linarith
  have hc_lb : -(5:ℝ)/10^12 ≤ Real.log (1 - (4:ℝ)/10^12) := by
    have h := neg_div_le_log_one_sub (s := (4:ℝ)/10^12) (by norm_num)
    have h2 : -((5:ℝ)/10^12) ≤ -((4:ℝ)/10^12 / (1 - 4/10^12)) := by norm_num
    linarith
  have hm_ub : Real.log (1 - (2:ℝ)/10^6) ≤ -(2:ℝ)/10^6 := by
    have h := log_one_sub_le (s := (2:ℝ)/10^6) (by norm_num)
    linarith
  have hm_lb : -(21:ℝ)/10^7 ≤ Real.log (1 - (2:ℝ)/10^6) := by
    have h := neg_div_le_log_one_sub (s := (2:ℝ)/10^6) (by norm_num)
    have h2 : -((21:ℝ)/10^7) ≤ -((2:ℝ)/10^6 / (1 - 2/10^6)) := by norm_num
    linarith
  rw [hloga, hlogx]
  set c := Real.log (1 - (4:ℝ)/10^12) with hc
  clear_value c
  set m := Real.log (1 - (2:ℝ)/10^6) with hm
  clear_value m
  set L := Real.log 2 with hL
  clear_value L
  set d := dilog ((499999:ℝ)/10^6) with hd
  clear_value d
  have hdil : d ≤ 0.5822392 := by rw [hd]; exact dilog_x0_le
  simp only [sqr]
  have hexp : -((c - 2*L) * (c - 2*L)) + 2*((m - L) * (m - L))
      = -(c*c) + 4*(L*c) - 2*(L*L) + 2*(m*m) - 4*(L*m) := by ring
  have hcc : c * c ≤ 1/10^22 := by
    nlinarith [mul_nonneg (neg_nonneg.mpr hc_ub) (by linarith : (0:ℝ) ≤ c + 5/10^12)]
  have hLc : (0.7:ℝ) * c ≤ L * c := by
    have : L ≤ 0.7 := by linarith
    exact mul_le_mul_of_nonpos_right this hc_ub
  have hLL : L * L ≤ 0.4804530143 := by
    have h1 := mul_le_mul hL_hi.le hL_hi.le hL_nn (by norm_num : (0:ℝ) ≤ 0.6931471808)
    have h2 : (0.6931471808:ℝ) * 0.6931471808 ≤ 0.4804530143 := by norm_num
    linarith
  have hmm' : (0:ℝ) ≤ m * m := mul_self_nonneg m
  have hLm : L * m ≤ -(13862943606:ℝ)/10^16 := by
    have h1 : L * m ≤ 0.6931471803 * m :=
      mul_le_mul_of_nonpos_right hL_lo.le (by linarith)
    have h2 : (0.6931471803:ℝ) * m ≤ 0.6931471803 * (-(2:ℝ)/10^6) :=
      mul_le_mul_of_nonneg_left hm_ub (by norm_num)
    have h3 : (0.6931471803:ℝ) * (-(2:ℝ)/10^6) = -(13862943606:ℝ)/10^16 := by norm_num
    linarith
  nlinarith [hexp, hcc, hLc, hLL, hmm', hLm, hdil, hc_lb]

/-- C1 counterexample: at `(x,y,z) = (1/4 - 10⁻¹², 1/4 - 10⁻¹², 1)` the
sorted, normalized ratios are `u = v = 1/4 - 10⁻¹²` and the Källén
discriminant is `λ² = 4·10⁻¹²`, which is zero within relative tolerance
`1e-11` (the stated `is_equal (λ², 0, 1e-11)` holds); yet `Phi` is strictly
positive — not 0 — because the source's zero test uses the absolute
tolerance `eps = 10·2⁻⁵² ≈ 2.2·10⁻¹⁵`, which `4·10⁻¹²` fails. -/
theorem Phi_zero_tolerance_counterexample :
    is_equal (lambda_2 (((1:ℝ)/4 - 1/10^12) / 1) (((1:ℝ)/4 - 1/10^12) / 1))
      0 (1/10^11) ∧
    sort3 ((1:ℝ)/4 - 1/10^12) ((1:ℝ)/4 - 1/10^12) 1
      = ((1:ℝ)/4 - 1/10^12, (1:ℝ)/4 - 1/10^12, 1) ∧
    Phi ((1:ℝ)/4 - 1/10^12) ((1:ℝ)/4 - 1/10^12) 1 ≠ 0 := by
  have hsort : sort3 ((1:ℝ)/4 - 1/10^12) ((1:ℝ)/4 - 1/10^12) 1
      = ((1:ℝ)/4 - 1/10^12, (1:ℝ)/4 - 1/10^12, 1) :=
    sort3_of_sorted le_rfl (by norm_num)
  have htol : is_equal (lambda_2 (((1:ℝ)/4 - 1/10^12) / 1)
      (((1:ℝ)/4 - 1/10^12) / 1)) 0 (1/10^11) := by
    rw [div_one, lam_at_counterexample]
    norm_num [is_equal, is_zero, abs_of_nonneg]
  have hPhi : 0 < Phi ((1:ℝ)/4 - 1/10^12) ((1:ℝ)/4 - 1/10^12) 1 := by
    unfold Phi
    rw [hsort]
    dsimp only
    rw [div_one]
    have hphiuv : phi_uv ((1:ℝ)/4 - 1/10^12) ((1:ℝ)/4 - 1/10^12)
        = phi_pos ((1:ℝ)/4 - 1/10^12) ((1:ℝ)/4 - 1/10^12) := by
      unfold phi_uv
      simp only [lam_at_counterexample]
      rw [if_neg (by norm_num [is_zero, eps, abs_of_nonneg]),
          if_pos (by norm_num : (4:ℝ)/10^12 > 0),
          if_pos ⟨by norm_num, by norm_num⟩]
    rw [hphiuv, lam_at_counterexample]
    have h := phi_pos_at_counterexample
    nlinarith [h]
  exact ⟨htol, hsort, ne_of_gt hPhi⟩

end gm2calc
